import Mathlib

/-!
Verification of the FPN (Fight Position Notation) decoder and pose-mapping
core of `blender_render_fpn.py`.

The Python source is shallowly embedded here:
* strings are `List Char`;
* Python `str.split(d)` is `splitOnChar`;
* Python `str.strip()` is `pyStrip` (ASCII whitespace);
* Python `int(s)` is `pyInt` (strip, optional sign, base-10 digits with
  single underscores allowed strictly between digits);
* exceptions are an `Except DecodeErr` result: the explicit
  `raise ValueError` sites become `DecodeErr.malformedField`, a failing
  `int(...)` becomes `DecodeErr.invalidNumber`, and an out-of-range list or
  string subscript becomes `DecodeErr.indexError`;
* Python floats are modelled as exact rationals `ℚ`, and angles that are
  rational multiples of `math.pi` are modelled by the pair type `Angle`
  (`Angle.mk q c` stands for `q + c * π` radians).
-/

/-- ASCII whitespace as stripped by Python `str.strip()` and `int()`. -/
def isPySpace (c : Char) : Bool :=
  c == ' ' || c == '\t' || c == '\n' || c == '\r' || c == '\x0b' || c == '\x0c'

/-- Python `str.strip()` on a character list: drop whitespace at both ends. -/
def pyStrip (l : List Char) : List Char :=
  ((l.dropWhile isPySpace).reverse.dropWhile isPySpace).reverse

/-- Python `s.split(d)` for a one-character separator `d`:
`splitOnChar d [] = [[]]`, and every occurrence of `d` starts a new group. -/
def splitOnChar (d : Char) : List Char → List (List Char)
  | [] => [[]]
  | c :: cs =>
    let r := splitOnChar d cs
    if c = d then [] :: r
    else
      match r with
      | g :: gs => (c :: g) :: gs
      | [] => [[c]]

/-- Value of a digit run after its first digit, per Python `int` syntax:
a single underscore may stand strictly between two digits. -/
def pyDigitsAux (acc : Nat) : List Char → Option Nat
  | [] => some acc
  | c :: cs =>
    if c.isDigit then pyDigitsAux (acc * 10 + (c.toNat - 48)) cs
    else if c = '_' then
      match cs with
      | d :: ds => if d.isDigit then pyDigitsAux (acc * 10 + (d.toNat - 48)) ds else none
      | [] => none
    else none

/-- Value of a Python digit run: nonempty, must start with a digit. -/
def pyDigitVal : List Char → Option Nat
  | [] => none
  | c :: cs => if c.isDigit then pyDigitsAux (c.toNat - 48) cs else none

/-- Python `int(s)` for a base-10 string: strip surrounding whitespace, read an
optional sign, then a digit run (underscores allowed between digits).
Returns `none` exactly where Python raises `ValueError`. -/
def pyInt (l : List Char) : Option Int :=
  match pyStrip l with
  | '-' :: rest => (pyDigitVal rest).map (fun n => -(n : Int))
  | '+' :: rest => (pyDigitVal rest).map (fun n => (n : Int))
  | t => (pyDigitVal t).map (fun n => (n : Int))

/-- Decode failures of `parse_fpn`: the two explicit `raise ValueError` sites
(`malformedField`, carrying the offending substring), a failing `int()`
(`invalidNumber`, carrying the token), and an out-of-range subscript
(Python `IndexError`). -/
inductive DecodeErr where
  | malformedField : List Char → DecodeErr
  | invalidNumber : List Char → DecodeErr
  | indexError : DecodeErr
deriving DecidableEq, Repr

/-- Python list/string subscript `l[i]`: `IndexError` when out of range. -/
def getIdx {α : Type} (l : List α) (i : Nat) : Except DecodeErr α :=
  match l.get? i with
  | some a => .ok a
  | none => .error .indexError

/-- Python `int(s)` lifted into the decode monad: a parse failure is the
`ValueError` that `parse_fpn` lets escape, recorded as `invalidNumber`. -/
def pyIntE (l : List Char) : Except DecodeErr Int :=
  match pyInt l with
  | some n => .ok n
  | none => .error (.invalidNumber l)

/-- Momentum record of one fighter (`linear` is raw tenths, `rotational` raw). -/
structure Momentum where
  linear : ℚ
  rotational : Int
deriving DecidableEq, Repr

/-- Biomechanics record of one fighter. -/
structure Biomech where
  hip_rot : Int
  torso_rot : Int
  weight : ℚ
  recovering : Bool
  frames : Int
deriving DecidableEq, Repr

/-- Decoded state of one fighter, mirroring the dict built by `parse_fighter`. -/
structure FighterState where
  stance : List Char
  balance : ℚ
  fatigue : ℚ
  damage : ℚ
  momentum : Momentum
  biomech : Biomech
  limbs : List Char
deriving DecidableEq, Repr

/-- Decoded fight state, mirroring the dict returned by `parse_fpn`. -/
structure FightState where
  fighter_a : FighterState
  fighter_b : FighterState
  distance : List Char
  turn : List Char
  move_count : Int
deriving DecidableEq, Repr

/-- Embedding of the inner `parse_fighter` of `blender_render_fpn.py`
(lines 25-50), with the field computations in Python evaluation order:
the `.`-split with its exact-7 check, the `,`-splits of momentum and
biomech, then each dict entry left to right. -/
def parse_fighter (s : List Char) : Except DecodeErr FighterState :=
  let parts := splitOnChar '.' s
  if parts.length ≠ 7 then .error (.malformedField s) else do
    let p4 ← getIdx parts 4
    let mom := splitOnChar ',' p4
    let p5 ← getIdx parts 5
    let bio := splitOnChar ',' p5
    let stance ← getIdx parts 0
    let r1 ← getIdx parts 1
    let bal ← pyIntE r1
    let r2 ← getIdx parts 2
    let fat ← pyIntE r2
    let r3 ← getIdx parts 3
    let dam ← pyIntE r3
    let m0 ← getIdx mom 0
    let lin ← pyIntE m0
    let m1 ← getIdx mom 1
    let rot ← pyIntE m1
    let b0 ← getIdx bio 0
    let hip ← pyIntE b0
    let b1 ← getIdx bio 1
    let tor ← pyIntE b1
    let b2 ← getIdx bio 2
    let wt ← pyIntE b2
    let b3 ← getIdx bio 3
    let b4 ← getIdx bio 4
    let fr ← pyIntE b4
    let limbs ← getIdx parts 6
    pure
      { stance := stance
        balance := (bal : ℚ) / 100
        fatigue := (fat : ℚ) / 100
        damage := (dam : ℚ) / 100
        momentum := { linear := (lin : ℚ) / 10, rotational := rot }
        biomech :=
          { hip_rot := hip
            torso_rot := tor
            weight := (wt : ℚ) / 100
            recovering := b3 == ['1']
            frames := fr }
        limbs := limbs }

/-- Embedding of `parse_fpn` of `blender_render_fpn.py` (lines 19-58):
strip the input, `/`-split with its exact-5 check (the raised `ValueError`
message carries the original unstripped input), then the dict entries in
Python evaluation order. -/
def parse_fpn (s : List Char) : Except DecodeErr FightState :=
  let parts := splitOnChar '/' (pyStrip s)
  if parts.length ≠ 5 then .error (.malformedField s) else do
    let p0 ← getIdx parts 0
    let fa ← parse_fighter p0
    let p1 ← getIdx parts 1
    let fb ← parse_fighter p1
    let p2 ← getIdx parts 2
    let p3 ← getIdx parts 3
    let p4 ← getIdx parts 4
    let mc ← pyIntE p4
    pure
      { fighter_a := fa
        fighter_b := fb
        distance := p2
        turn := p3
        move_count := mc }

instance {ε α : Type} [DecidableEq ε] [DecidableEq α] : DecidableEq (Except ε α)
  | .ok a, .ok b =>
    if h : a = b then .isTrue (by rw [h]) else .isFalse (fun hh => by cases hh; exact h rfl)
  | .error e, .error f =>
    if h : e = f then .isTrue (by rw [h]) else .isFalse (fun hh => by cases hh; exact h rfl)
  | .ok _, .error _ => .isFalse (fun hh => by cases hh)
  | .error _, .ok _ => .isFalse (fun hh => by cases hh)

/-- An exact angle value `q + piCoeff * π` radians. The Python source mixes
plain float radians with multiples of `math.pi`; both embed exactly here
(`math.pi / 3` is `⟨0, 1/3⟩`, `math.radians d = d * π / 180` is
`⟨0, d / 180⟩`, and a plain value `x` is `⟨x, 0⟩`). -/
structure Angle where
  q : ℚ
  piCoeff : ℚ
deriving DecidableEq, Repr

/-- Embedding of `math.radians` applied to an integer number of degrees. -/
def deg2rad (d : Int) : Angle :=
  ⟨0, (d : ℚ) / 180⟩

/-- The damage darkening factor `1 - (damage * 0.5)` of `pose_mannequin`. -/
def tintFactor (damage : ℚ) : ℚ :=
  1 - damage * (5/10)

/-- The per-fighter pose values that `pose_mannequin` (lines 166-213) writes
into the scene, collected as a record. -/
structure PoseParams where
  leanAngle : Angle
  hipRot : Angle
  torsoRot : Angle
  leftArmAngle : Angle
  rightArmAngle : Angle
  tint : ℚ
deriving DecidableEq, Repr

/-- Left upper-arm rotation from `pose_mannequin` lines 187-191: Python
subscripts `limbs[0]` (an `IndexError` when `limbs` is empty), then the arm
is extended exactly when that character is in `['E', 'B']`;
`math.pi / 3` extended, `math.pi / 6` relaxed. -/
def leftArmAngleOf (limbs : List Char) : Except DecodeErr Angle := do
  let c ← getIdx limbs 0
  pure (if c ∈ (['E', 'B'] : List Char) then ⟨0, 1/3⟩ else ⟨0, 1/6⟩)

/-- Right upper-arm rotation from `pose_mannequin` lines 193-197: Python
subscripts `limbs[1]`, and the angle carries the opposite sign:
`-math.pi / 3` extended, `-math.pi / 6` relaxed. -/
def rightArmAngleOf (limbs : List Char) : Except DecodeErr Angle := do
  let c ← getIdx limbs 1
  pure (if c ∈ (['E', 'B'] : List Char) then ⟨0, -(1/3)⟩ else ⟨0, -(1/6)⟩)

/-- The pose derivation of `pose_mannequin` (lines 166-213) as a function of
one fighter: lean `(1 - balance) * 0.2` about the lateral axis, hip and
torso rotations through `math.radians`, both arm angles (these two reads
are the only failure points, in source order left then right), and the
damage tint factor. -/
def mapPose (f : FighterState) : Except DecodeErr PoseParams := do
  let la ← leftArmAngleOf f.limbs
  let ra ← rightArmAngleOf f.limbs
  pure
    { leanAngle := ⟨(1 - f.balance) * (2/10), 0⟩
      hipRot := deg2rad f.biomech.hip_rot
      torsoRot := deg2rad f.biomech.torso_rot
      leftArmAngle := la
      rightArmAngle := ra
      tint := tintFactor f.damage }

/-- One object of the Blender scene as far as the damage loop can observe it:
its name and whether its type is `MESH`. -/
structure SceneObj where
  oname : List Char
  isMesh : Bool
deriving DecidableEq, Repr

/-- Name suffixes of the fifteen mesh parts built by `create_simple_mannequin`
(lines 65-164), in creation order: head, torso, hips, then per side upper
arm, lower arm, hand, then per side upper leg, lower leg, foot. All parts
of one mannequin share a single material. -/
def partSuffixes : List (List Char) :=
  ["_head", "_torso", "_hips",
   "_left_upper_arm", "_left_lower_arm", "_left_hand",
   "_right_upper_arm", "_right_lower_arm", "_right_hand",
   "_left_upper_leg", "_left_lower_leg", "_left_foot",
   "_right_upper_leg", "_right_lower_leg", "_right_foot"].map String.toList

/-- The objects one mannequin contributes to `bpy.data.objects`: the empty
parent (not a mesh) and the fifteen mesh parts. -/
def mannequinObjs (n : List Char) : List SceneObj :=
  ⟨n, false⟩ :: partSuffixes.map (fun s => ⟨n ++ s, true⟩)

/-- Contents of `bpy.data.objects` when `pose_mannequin` runs inside
`setup_scene` (lines 223-236): both mannequins exist; ground, lights and
camera are created only afterwards. -/
def sceneObjsAtPose : List SceneObj :=
  mannequinObjs "FighterA".toList ++ mannequinObjs "FighterB".toList

/-- An RGBA color with exact rational channels. -/
structure Color where
  r : ℚ
  g : ℚ
  b : ℚ
  a : ℚ
deriving DecidableEq, Repr

/-- One pass of the damage loop body (lines 203-213): multiply the three
color channels of the shared material by the tint factor, set alpha to 1. -/
def applyDamageOnce (damage : ℚ) (c : Color) : Color :=
  ⟨c.r * tintFactor damage, c.g * tintFactor damage, c.b * tintFactor damage, 1⟩

/-- The damage loop of `pose_mannequin` (lines 199-213): iterate over every
scene object whose name starts with the mannequin name and whose type is
`MESH`, re-applying the factor to the one shared material each time. -/
def damageTintPass (objs : List SceneObj) (n : List Char) (damage : ℚ) (c : Color) : Color :=
  objs.foldl (fun col o => if n.isPrefixOf o.oname && o.isMesh then applyDamageOnce damage col else col) c

/-- The distance table of `setup_scene` line 220 as an association list. -/
def distance_map : List (List Char × ℚ) :=
  [(['c'], 3/2), (['s'], 5/2), (['m'], 4), (['l'], 6), (['v'], 8)]

/-- Lookup `distance_map.get(code, 4)` of `setup_scene` line 221: table lookup
with default 4. -/
def placement (k : List Char) : ℚ :=
  (distance_map.lookup k).getD 4

/-- Base color of fighter A (red) from `setup_scene` line 224. -/
def redColor : Color := ⟨1, 3/10, 3/10, 1⟩

/-- Base color of fighter B (blue) from `setup_scene` line 225. -/
def blueColor : Color := ⟨3/10, 3/10, 1, 1⟩

/-- The literal example input of the repository (also in the usage text of
`main`). -/
def exFPN : List Char :=
  "o.95.15.0.3,5.10,15,55,0,0.----/s.90.20.5.-1,0.-5,-10,45,0,0.----/m/A/5".toList

/-- Expected decode of fighter A of `exFPN`. -/
def exFighterA : FighterState :=
  { stance := ['o'], balance := 95/100, fatigue := 15/100, damage := 0,
    momentum := { linear := 3/10, rotational := 5 },
    biomech := { hip_rot := 10, torso_rot := 15, weight := 55/100, recovering := false, frames := 0 },
    limbs := ['-', '-', '-', '-'] }

/-- Expected decode of fighter B of `exFPN`. -/
def exFighterB : FighterState :=
  { stance := ['s'], balance := 90/100, fatigue := 20/100, damage := 5/100,
    momentum := { linear := -1/10, rotational := 0 },
    biomech := { hip_rot := -5, torso_rot := -10, weight := 45/100, recovering := false, frames := 0 },
    limbs := ['-', '-', '-', '-'] }

/-- Expected decode of `exFPN`. -/
def exState : FightState :=
  { fighter_a := exFighterA, fighter_b := exFighterB,
    distance := ['m'], turn := ['A'], move_count := 5 }

/-- The example input with a three-component momentum `3,5,9` in fighter A. -/
def exMom3FPN : List Char :=
  "o.95.15.0.3,5,9.10,15,55,0,0.----/s.90.20.5.-1,0.-5,-10,45,0,0.----/m/A/5".toList

/-- A fighter string whose momentum `,`-split has one component. -/
def exMomShortFighter : List Char :=
  "o.95.15.0.3.10,15,55,0,0.----".toList

/-- A fighter string whose biomech `,`-split has four components. -/
def exBioShortFighter : List Char :=
  "o.95.15.0.3,5.10,15,55,0.----".toList

/-- The example input with the non-numeric balance field `9a` in fighter A. -/
def exBad9aFPN : List Char :=
  "o.9a.15.0.3,5.10,15,55,0,0.----/s.90.20.5.-1,0.-5,-10,45,0,0.----/m/A/5".toList

/-- The example input with the balance field `9_5` (an underscore between
digits) in fighter A. -/
def exUnderscoreFPN : List Char :=
  "o.9_5.15.0.3,5.10,15,55,0,0.----/s.90.20.5.-1,0.-5,-10,45,0,0.----/m/A/5".toList

/-- The example input with the balance field ` 95` (a leading space) in
fighter A. -/
def exSpaceFPN : List Char :=
  "o. 95.15.0.3,5.10,15,55,0,0.----/s.90.20.5.-1,0.-5,-10,45,0,0.----/m/A/5".toList

/-- The example input with frames `-1` in fighter A and move count `-5`. -/
def exNegFPN : List Char :=
  "o.95.15.0.3,5.10,15,55,0,-1.----/s.90.20.5.-1,0.-5,-10,45,0,0.----/m/A/-5".toList

/-- The example input with an empty limbs field in fighter A. -/
def exEmptyLimbsFPN : List Char :=
  "o.95.15.0.3,5.10,15,55,0,0./s.90.20.5.-1,0.-5,-10,45,0,0.----/m/A/5".toList

/-- The fighter A substring of `exFPN` on its own. -/
def exFighterStrA : List Char :=
  "o.95.15.0.3,5.10,15,55,0,0.----".toList

theorem ok_bind {ε α β : Type} (a : α) (f : α → Except ε β) :
    (Except.ok a >>= f) = f a := rfl

theorem error_bind {ε α β : Type} (e : ε) (f : α → Except ε β) :
    (Except.error e >>= f : Except ε β) = Except.error e := rfl

theorem pure_except {ε α : Type} (a : α) :
    (pure a : Except ε α) = Except.ok a := rfl

theorem except_bind_ok {ε α β : Type} {x : Except ε α} {f : α → Except ε β} {b : β} :
    (x >>= f) = Except.ok b ↔ ∃ a, x = Except.ok a ∧ f a = Except.ok b := by
  cases x with
  | error e =>
    rw [error_bind]
    simp
  | ok a =>
    rw [ok_bind]
    constructor
    · intro h
      exact ⟨a, rfl, h⟩
    · rintro ⟨a2, ha, hf⟩
      cases ha
      exact hf

theorem except_pure_ok {ε α : Type} {a b : α} :
    (pure a : Except ε α) = Except.ok b ↔ a = b := by
  rw [pure_except]
  constructor
  · intro h
    cases h
    rfl
  · intro h
    rw [h]

theorem getIdx_ok {α : Type} {l : List α} {i : Nat} {a : α} :
    getIdx l i = Except.ok a ↔ l.get? i = some a := by
  unfold getIdx
  cases h : l.get? i <;> simp

theorem pyIntE_ok {l : List Char} {n : Int} :
    pyIntE l = Except.ok n ↔ pyInt l = some n := by
  unfold pyIntE
  cases h : pyInt l <;> simp

theorem mapPose_spec (f : FighterState) (h : 2 ≤ f.limbs.length) :
    mapPose f = Except.ok
      { leanAngle := ⟨(1 - f.balance) * (2/10), 0⟩
        hipRot := deg2rad f.biomech.hip_rot
        torsoRot := deg2rad f.biomech.torso_rot
        leftArmAngle :=
          if f.limbs.getD 0 ' ' ∈ (['E', 'B'] : List Char) then ⟨0, 1/3⟩ else ⟨0, 1/6⟩
        rightArmAngle :=
          if f.limbs.getD 1 ' ' ∈ (['E', 'B'] : List Char) then ⟨0, -(1/3)⟩ else ⟨0, -(1/6)⟩
        tint := tintFactor f.damage } := by
  obtain ⟨st, bal, fat, dam, mom, bio, limbs⟩ := f
  match limbs with
  | [] => simp at h
  | [a] => simp at h
  | a :: b :: t =>
    simp [mapPose, leftArmAngleOf, rightArmAngleOf, getIdx, ok_bind, pure_except, List.getD]

theorem mapPose_short (f : FighterState) (h : f.limbs.length < 2) :
    mapPose f = Except.error DecodeErr.indexError := by
  obtain ⟨st, bal, fat, dam, mom, bio, limbs⟩ := f
  match limbs with
  | [] =>
    simp [mapPose, leftArmAngleOf, getIdx, error_bind]
  | [a] =>
    simp [mapPose, leftArmAngleOf, rightArmAngleOf, getIdx, ok_bind, error_bind]
  | a :: b :: t => simp at h; omega

/-- C1 counterexample: the decoder accepts a state whose fighter A has an
empty limbs string, and mapping that fighter fails with an index error
instead of treating the missing indices as relaxed. -/
theorem C1_counterexample :
    (parse_fpn exEmptyLimbsFPN).map (fun st => mapPose st.fighter_a) =
      Except.ok (Except.error DecodeErr.indexError) := by
  with_unfolding_all rfl

/-- C1 (amended): the pose mapping succeeds for every fighter whose limbs
string has length at least 2; for shorter limbs strings the subscripts
`limbs[0]` or `limbs[1]` raise an IndexError rather than treating the
missing index as not extended. -/
theorem C1_mapPose_total_on_long_limbs (f : FighterState) (h : 2 ≤ f.limbs.length) :
    (mapPose f).isOk = true := by
  rw [mapPose_spec f h]
  rfl

/-- C1 witness: the hypothesis and conclusion at the concrete fighter A. -/
theorem C1_witness : 2 ≤ exFighterA.limbs.length ∧ (mapPose exFighterA).isOk = true :=
  ⟨by decide, C1_mapPose_total_on_long_limbs exFighterA (by decide)⟩

/-- C8: for a fighter whose limbs indices 0 and 1 exist, the left arm angle
is exactly pi/3 when the character is E or B and pi/6 otherwise, the right
arm likewise from its own character with the opposite sign, and both are
functions of the limbs characters alone. -/
theorem C8_arm_angles (f : FighterState) (h : 2 ≤ f.limbs.length) :
    ∃ p, mapPose f = Except.ok p ∧
      p.leftArmAngle =
        (if f.limbs.getD 0 ' ' ∈ (['E', 'B'] : List Char) then ⟨0, 1/3⟩ else ⟨0, 1/6⟩) ∧
      p.rightArmAngle =
        (if f.limbs.getD 1 ' ' ∈ (['E', 'B'] : List Char) then ⟨0, -(1/3)⟩ else ⟨0, -(1/6)⟩) :=
  ⟨_, mapPose_spec f h, rfl, rfl⟩

/-- C8 witness: the hypothesis and conclusion at the concrete fighter A. -/
theorem C8_witness :
    2 ≤ exFighterA.limbs.length ∧
      ∃ p, mapPose exFighterA = Except.ok p ∧
        p.leftArmAngle =
          (if exFighterA.limbs.getD 0 ' ' ∈ (['E', 'B'] : List Char) then ⟨0, 1/3⟩ else ⟨0, 1/6⟩) ∧
        p.rightArmAngle =
          (if exFighterA.limbs.getD 1 ' ' ∈ (['E', 'B'] : List Char) then ⟨0, -(1/3)⟩ else ⟨0, -(1/6)⟩) :=
  ⟨by decide, C8_arm_angles exFighterA (by decide)⟩

/-- C4: decoding the literal example string yields exactly the listed
fight state. -/
theorem C4_decode_example : parse_fpn exFPN = Except.ok exState := by
  with_unfolding_all rfl

/-- C7: the placement distance table is exactly c 1.5, s 2.5, m 4, l 6, v 8,
and every distance code outside the table gets the default 4; in particular
m gives 4, the unrecognized x gives 4, and v gives 8. -/
theorem C7_placement :
    placement ['m'] = 4 ∧ placement ['x'] = 4 ∧ placement ['v'] = 8 ∧
    placement ['c'] = 3/2 ∧ placement ['s'] = 5/2 ∧ placement ['l'] = 6 ∧
    ∀ k : List Char, k ∉ ([['c'], ['s'], ['m'], ['l'], ['v']] : List (List Char)) →
      placement k = 4 := by
  refine ⟨by with_unfolding_all rfl, by with_unfolding_all rfl, by with_unfolding_all rfl,
    by with_unfolding_all rfl, by with_unfolding_all rfl, by with_unfolding_all rfl, ?_⟩
  intro k hk
  simp only [List.mem_cons, List.not_mem_nil, or_false, not_or] at hk
  obtain ⟨h1, h2, h3, h4, h5⟩ := hk
  have e1 : (k == ['c']) = false := beq_eq_false_iff_ne.mpr h1
  have e2 : (k == ['s']) = false := beq_eq_false_iff_ne.mpr h2
  have e3 : (k == ['m']) = false := beq_eq_false_iff_ne.mpr h3
  have e4 : (k == ['l']) = false := beq_eq_false_iff_ne.mpr h4
  have e5 : (k == ['v']) = false := beq_eq_false_iff_ne.mpr h5
  simp [placement, distance_map, List.lookup, e1, e2, e3, e4, e5]

/-- C7 witness: the default branch at the concrete unrecognized code x. -/
theorem C7_witness :
    (['x'] ∉ ([['c'], ['s'], ['m'], ['l'], ['v']] : List (List Char))) ∧ placement ['x'] = 4 :=
  ⟨by decide, C7_placement.2.2.2.2.2.2 ['x'] (by decide)⟩

theorem foldl_guard_eq_iterate {α : Type} (p : α → Bool) (f : Color → Color)
    (l : List α) (c : Color) :
    l.foldl (fun col o => if p o then f col else col) c = f^[l.countP p] c := by
  induction l generalizing c with
  | nil => rfl
  | cons o t ih =>
    by_cases hp : p o
    · simp [List.foldl, hp, List.countP_cons, ih, Function.iterate_succ_apply]
    · simp [List.foldl, hp, List.countP_cons, ih]

theorem applyDamageOnce_iterate (d : ℚ) (c : Color) :
    ∀ n : Nat, 1 ≤ n →
      (applyDamageOnce d)^[n] c =
        ⟨c.r * tintFactor d ^ n, c.g * tintFactor d ^ n, c.b * tintFactor d ^ n, 1⟩ := by
  intro n
  induction n generalizing c with
  | zero => intro h; omega
  | succ m ih =>
    intro _
    by_cases hm : 1 ≤ m
    · rw [Function.iterate_succ_apply, ih (applyDamageOnce d c) hm]
      simp only [applyDamageOnce]
      congr 1 <;> ring
    · have hm0 : m = 0 := by omega
      subst hm0
      rw [Function.iterate_one]
      simp only [applyDamageOnce]
      congr 1 <;> ring

theorem countP_fighterA :
    sceneObjsAtPose.countP (fun o => "FighterA".toList.isPrefixOf o.oname && o.isMesh) = 15 := by
  decide

theorem countP_fighterB :
    sceneObjsAtPose.countP (fun o => "FighterB".toList.isPrefixOf o.oname && o.isMesh) = 15 := by
  decide

/-- C3 counterexample: with fighter B damage 0.05 the damage loop does not
leave the shared material at base color times 0.975 — the factor is
re-applied once per mesh part, fifteen times in total. -/
theorem C3_counterexample :
    (damageTintPass sceneObjsAtPose ("FighterB".toList) (5/100) blueColor).b ≠
      blueColor.b * (1 - (5/100) * (5/10)) := by
  with_unfolding_all decide

/-- C3 (amended): the factor `1 - damage * 0.5` is applied once per mesh body
part to the single shared material of a fighter, and each mannequin has
fifteen mesh parts, so the net effect on every color channel is the factor
raised to the fifteenth power (alpha is reset to 1). -/
theorem C3_tint_applied_per_part (d : ℚ) (c : Color) :
    damageTintPass sceneObjsAtPose ("FighterA".toList) d c =
        ⟨c.r * tintFactor d ^ 15, c.g * tintFactor d ^ 15, c.b * tintFactor d ^ 15, 1⟩ ∧
      damageTintPass sceneObjsAtPose ("FighterB".toList) d c =
        ⟨c.r * tintFactor d ^ 15, c.g * tintFactor d ^ 15, c.b * tintFactor d ^ 15, 1⟩ := by
  constructor
  · rw [damageTintPass, foldl_guard_eq_iterate, countP_fighterA]
    exact applyDamageOnce_iterate d c 15 (by omega)
  · rw [damageTintPass, foldl_guard_eq_iterate, countP_fighterB]
    exact applyDamageOnce_iterate d c 15 (by omega)

theorem parse_fpn_malformed (s : List Char)
    (h : (splitOnChar '/' (pyStrip s)).length ≠ 5) :
    parse_fpn s = Except.error (DecodeErr.malformedField s) := by
  unfold parse_fpn
  rw [if_pos h]

theorem parse_fighter_malformed (s : List Char)
    (h : (splitOnChar '.' s).length ≠ 7) :
    parse_fighter s = Except.error (DecodeErr.malformedField s) := by
  unfold parse_fighter
  rw [if_pos h]

/-- C2 counterexample: a fighter whose momentum splits into three components
is accepted (the extra component is ignored), where the claim demands a
MalformedField rejection. -/
theorem C2_counterexample :
    (parse_fpn exMom3FPN).isOk = true ∧
      (parse_fpn exMom3FPN).map (fun st => st.fighter_a.momentum.rotational) = Except.ok 5 := by
  constructor
  · with_unfolding_all rfl
  · with_unfolding_all rfl

/-- C2 (amended): exact-count checks exist only at the top level (5 fields,
else MalformedField naming the whole input) and at the fighter level
(7 fields, else MalformedField naming the fighter substring); the momentum
and biomech splits are never count-checked — extra components are ignored,
and a missing component fails with an IndexError, not MalformedField. -/
theorem C2_split_checks :
    (∀ s : List Char, (splitOnChar '/' (pyStrip s)).length ≠ 5 →
        parse_fpn s = Except.error (DecodeErr.malformedField s)) ∧
      (∀ s : List Char, (splitOnChar '.' s).length ≠ 7 →
        parse_fighter s = Except.error (DecodeErr.malformedField s)) ∧
      parse_fighter exMomShortFighter = Except.error DecodeErr.indexError ∧
      parse_fighter exBioShortFighter = Except.error DecodeErr.indexError := by
  refine ⟨parse_fpn_malformed, parse_fighter_malformed, ?_, ?_⟩
  · with_unfolding_all rfl
  · with_unfolding_all rfl

/-- C2 witness: the top-level check at a concrete one-field input. -/
theorem C2_witness :
    ((splitOnChar '/' (pyStrip "xyz".toList)).length ≠ 5) ∧
      parse_fpn "xyz".toList = Except.error (DecodeErr.malformedField "xyz".toList) :=
  ⟨by decide, C2_split_checks.1 "xyz".toList (by decide)⟩

/-- C5 counterexample: declared-numeric fields containing an extraneous
underscore or space are accepted by the decoder, not rejected with
InvalidNumber. -/
theorem C5_counterexample :
    (parse_fpn exUnderscoreFPN).map (fun st => st.fighter_a.balance) = Except.ok (95/100) ∧
      (parse_fpn exSpaceFPN).map (fun st => st.fighter_a.balance) = Except.ok (95/100) := by
  constructor
  · with_unfolding_all rfl
  · with_unfolding_all rfl

/-- C5 (amended): integer fields parse with Python int semantics — optional
surrounding whitespace, an optional sign, and single underscores between
digits are all accepted; any other non-numeric content, such as 9a, fails
the decode with InvalidNumber naming the token. -/
theorem C5_int_fields :
    parse_fpn exBad9aFPN = Except.error (DecodeErr.invalidNumber "9a".toList) ∧
      pyInt "9a".toList = none ∧
      pyInt " 95".toList = some 95 ∧
      pyInt "9_5".toList = some 95 := by
  refine ⟨?_, ?_, ?_, ?_⟩ <;> with_unfolding_all rfl

/-- C6 counterexample: an input with move count -5 and fighter A frames -1 is
accepted, and the negative values land in the decoded state. -/
theorem C6_counterexample :
    (parse_fpn exNegFPN).map (fun st => st.move_count) = Except.ok (-5) ∧
      (parse_fpn exNegFPN).map (fun st => st.fighter_a.biomech.frames) = Except.ok (-1) := by
  constructor
  · with_unfolding_all rfl
  · with_unfolding_all rfl

theorem getD_of_get? {α : Type} {l : List α} {i : Nat} {a : α} (d : α)
    (h : l.get? i = some a) : l.getD i d = a := by
  rw [List.getD_eq_getElem?_getD, ← List.get?_eq_getElem?, h]
  rfl

theorem parse_fighter_ok_inv {s : List Char} {f : FighterState}
    (h : parse_fighter s = Except.ok f) :
    ∃ bal fat dam lin rot hip tor wt fr : Int,
      pyInt ((splitOnChar '.' s).getD 1 []) = some bal ∧
      pyInt ((splitOnChar '.' s).getD 2 []) = some fat ∧
      pyInt ((splitOnChar '.' s).getD 3 []) = some dam ∧
      pyInt ((splitOnChar ',' ((splitOnChar '.' s).getD 4 [])).getD 0 []) = some lin ∧
      pyInt ((splitOnChar ',' ((splitOnChar '.' s).getD 4 [])).getD 1 []) = some rot ∧
      pyInt ((splitOnChar ',' ((splitOnChar '.' s).getD 5 [])).getD 0 []) = some hip ∧
      pyInt ((splitOnChar ',' ((splitOnChar '.' s).getD 5 [])).getD 1 []) = some tor ∧
      pyInt ((splitOnChar ',' ((splitOnChar '.' s).getD 5 [])).getD 2 []) = some wt ∧
      pyInt ((splitOnChar ',' ((splitOnChar '.' s).getD 5 [])).getD 4 []) = some fr ∧
      f.balance = (bal : ℚ) / 100 ∧
      f.fatigue = (fat : ℚ) / 100 ∧
      f.damage = (dam : ℚ) / 100 ∧
      f.momentum.linear = (lin : ℚ) / 10 ∧
      f.momentum.rotational = rot ∧
      f.biomech.hip_rot = hip ∧
      f.biomech.torso_rot = tor ∧
      f.biomech.weight = (wt : ℚ) / 100 ∧
      f.biomech.frames = fr := by
  simp only [parse_fighter] at h
  split at h
  · simp at h
  · simp only [except_bind_ok, except_pure_ok, getIdx_ok, pyIntE_ok] at h
    obtain ⟨p4, hp4, p5, hp5, st0, hst0, r1, hr1, bal, hbal, r2, hr2, fat, hfat, r3, hr3,
      dam, hdam, m0, hm0, lin, hlin, m1, hm1, rot, hrot, b0, hb0, hip, hhip, b1, hb1,
      tor, htor, b2, hb2, wt, hwt, b3, hb3, b4, hb4, fr, hfr, lm, hlm, heq⟩ := h
    subst heq
    refine ⟨bal, fat, dam, lin, rot, hip, tor, wt, fr, ?_, ?_, ?_, ?_, ?_, ?_, ?_, ?_, ?_,
      rfl, rfl, rfl, rfl, rfl, rfl, rfl, rfl, rfl⟩
    · rw [getD_of_get? [] hr1]; exact hbal
    · rw [getD_of_get? [] hr2]; exact hfat
    · rw [getD_of_get? [] hr3]; exact hdam
    · rw [getD_of_get? [] hp4, getD_of_get? [] hm0]; exact hlin
    · rw [getD_of_get? [] hp4, getD_of_get? [] hm1]; exact hrot
    · rw [getD_of_get? [] hp5, getD_of_get? [] hb0]; exact hhip
    · rw [getD_of_get? [] hp5, getD_of_get? [] hb1]; exact htor
    · rw [getD_of_get? [] hp5, getD_of_get? [] hb2]; exact hwt
    · rw [getD_of_get? [] hp5, getD_of_get? [] hb4]; exact hfr

theorem parse_fpn_ok_inv {s : List Char} {st : FightState}
    (h : parse_fpn s = Except.ok st) :
    parse_fighter ((splitOnChar '/' (pyStrip s)).getD 0 []) = Except.ok st.fighter_a ∧
      parse_fighter ((splitOnChar '/' (pyStrip s)).getD 1 []) = Except.ok st.fighter_b ∧
      ∃ n : Int, pyInt ((splitOnChar '/' (pyStrip s)).getD 4 []) = some n ∧ st.move_count = n := by
  simp only [parse_fpn] at h
  split at h
  · simp at h
  · simp only [except_bind_ok, except_pure_ok, getIdx_ok, pyIntE_ok] at h
    obtain ⟨p0, hp0, fa, hfa, p1, hp1, fb, hfb, p2, hp2, p3, hp3, p4, hp4, mc, hmc, heq⟩ := h
    subst heq
    refine ⟨?_, ?_, mc, ?_, rfl⟩
    · rw [getD_of_get? [] hp0]; exact hfa
    · rw [getD_of_get? [] hp1]; exact hfb
    · rw [getD_of_get? [] hp4]; exact hmc

/-- C6 (amended): move count and frames are the signed integers Python int()
parses from their fields — the decoder imposes no sign restriction, so
negative values are accepted (see the counterexample). -/
theorem C6_signed_int_fields :
    (∀ (s : List Char) (st : FightState), parse_fpn s = Except.ok st →
        ∃ n : Int, pyInt ((splitOnChar '/' (pyStrip s)).getD 4 []) = some n ∧
          st.move_count = n) ∧
      (∀ (s : List Char) (f : FighterState), parse_fighter s = Except.ok f →
        ∃ n : Int,
          pyInt ((splitOnChar ',' ((splitOnChar '.' s).getD 5 [])).getD 4 []) = some n ∧
            f.biomech.frames = n) := by
  constructor
  · intro s st h
    exact (parse_fpn_ok_inv h).2.2
  · intro s f h
    obtain ⟨_, _, _, _, _, _, _, _, fr, _, _, _, _, _, _, _, _, hfr9,
      _, _, _, _, _, _, _, _, hfre⟩ := parse_fighter_ok_inv h
    exact ⟨fr, hfr9, hfre⟩

/-- C6 witness: the move-count conclusion at the literal example input. -/
theorem C6_witness :
    parse_fpn exFPN = Except.ok exState ∧
      ∃ n : Int, pyInt ((splitOnChar '/' (pyStrip exFPN)).getD 4 []) = some n ∧
        exState.move_count = n :=
  ⟨by with_unfolding_all rfl,
    C6_signed_int_fields.1 exFPN exState (by with_unfolding_all rfl)⟩

/-- C9: every successfully decoded fighter stores balance, fatigue, damage
and weight as the raw parsed integer divided by 100, and the linear momentum
as the raw parsed integer divided by 10. -/
theorem C9_field_scaling (s : List Char) (f : FighterState)
    (h : parse_fighter s = Except.ok f) :
    ∃ bal fat dam lin wt : Int,
      pyInt ((splitOnChar '.' s).getD 1 []) = some bal ∧ f.balance = (bal : ℚ) / 100 ∧
      pyInt ((splitOnChar '.' s).getD 2 []) = some fat ∧ f.fatigue = (fat : ℚ) / 100 ∧
      pyInt ((splitOnChar '.' s).getD 3 []) = some dam ∧ f.damage = (dam : ℚ) / 100 ∧
      pyInt ((splitOnChar ',' ((splitOnChar '.' s).getD 4 [])).getD 0 []) = some lin ∧
        f.momentum.linear = (lin : ℚ) / 10 ∧
      pyInt ((splitOnChar ',' ((splitOnChar '.' s).getD 5 [])).getD 2 []) = some wt ∧
        f.biomech.weight = (wt : ℚ) / 100 := by
  obtain ⟨bal, fat, dam, lin, rot, hip, tor, wt, fr, h1, h2, h3, h4, h5, h6, h7, h8, h9,
    e1, e2, e3, e4, e5, e6, e7, e8, e9⟩ := parse_fighter_ok_inv h
  exact ⟨bal, fat, dam, lin, wt, h1, e1, h2, e2, h3, e3, h4, e4, h8, e8⟩

/-- C9 witness: the scaling conclusion at the literal fighter A substring,
whose raw balance 95 yields 0.95 and raw damage 0 yields 0.0. -/
theorem C9_witness :
    parse_fighter exFighterStrA = Except.ok exFighterA ∧
      ∃ bal fat dam lin wt : Int,
        pyInt ((splitOnChar '.' exFighterStrA).getD 1 []) = some bal ∧
          exFighterA.balance = (bal : ℚ) / 100 ∧
        pyInt ((splitOnChar '.' exFighterStrA).getD 2 []) = some fat ∧
          exFighterA.fatigue = (fat : ℚ) / 100 ∧
        pyInt ((splitOnChar '.' exFighterStrA).getD 3 []) = some dam ∧
          exFighterA.damage = (dam : ℚ) / 100 ∧
        pyInt ((splitOnChar ',' ((splitOnChar '.' exFighterStrA).getD 4 [])).getD 0 []) =
            some lin ∧
          exFighterA.momentum.linear = (lin : ℚ) / 10 ∧
        pyInt ((splitOnChar ',' ((splitOnChar '.' exFighterStrA).getD 5 [])).getD 2 []) =
            some wt ∧
          exFighterA.biomech.weight = (wt : ℚ) / 100 :=
  ⟨by with_unfolding_all rfl,
    C9_field_scaling exFighterStrA exFighterA (by with_unfolding_all rfl)⟩

theorem dropWhile_append_of_all (p : Char → Bool) :
    ∀ (w x : List Char), (∀ c ∈ w, p c = true) →
      (w ++ x).dropWhile p = x.dropWhile p
  | [], _, _ => rfl
  | c :: t, x, hw => by
    have hc : p c = true := hw c (by simp)
    simp only [List.cons_append, List.dropWhile_cons, hc, if_true]
    exact dropWhile_append_of_all p t x (fun d hd => hw d (by simp [hd]))

theorem dropWhile_all_nil (p : Char → Bool) (w : List Char)
    (hw : ∀ c ∈ w, p c = true) : w.dropWhile p = [] := by
  have h := dropWhile_append_of_all p w [] hw
  rw [List.append_nil] at h
  simpa using h

theorem dropWhile_append_right_all (p : Char → Bool) :
    ∀ (s w : List Char), (∀ c ∈ w, p c = true) →
      (s ++ w).dropWhile p =
        if s.dropWhile p = [] then [] else s.dropWhile p ++ w
  | [], w, hw => by simp [dropWhile_all_nil p w hw]
  | c :: t, w, hw => by
    by_cases hc : p c = true
    · simp only [List.cons_append, List.dropWhile_cons, hc, if_true]
      rw [dropWhile_append_right_all p t w hw]
    · have hcf : p c = false := by
        cases hpc : p c
        · rfl
        · exact absurd hpc hc
      simp [List.dropWhile_cons, hcf]

theorem pyStrip_pad (s w₁ w₂ : List Char)
    (h₁ : ∀ c ∈ w₁, isPySpace c = true) (h₂ : ∀ c ∈ w₂, isPySpace c = true) :
    pyStrip (w₁ ++ s ++ w₂) = pyStrip s := by
  unfold pyStrip
  rw [List.append_assoc, dropWhile_append_of_all _ w₁ _ h₁,
    dropWhile_append_right_all _ s w₂ h₂]
  by_cases hs : s.dropWhile isPySpace = []
  · simp [hs]
  · rw [if_neg hs, List.reverse_append,
      dropWhile_append_of_all _ w₂.reverse _ (fun c hc => h₂ c (List.mem_reverse.mp hc))]

/-- C10 counterexample: adding surrounding whitespace does not always give
the same result — on a malformed input the raised error quotes the original
unstripped string, so the two error values differ. -/
theorem C10_counterexample : parse_fpn " x".toList ≠ parse_fpn "x".toList := by
  with_unfolding_all decide

/-- C10 (amended): the decoder strips surrounding whitespace before the
top-level split, so padding an input with whitespace never changes whether
decoding succeeds nor the decoded state; only the substring quoted inside
the top-level MalformedField error may differ. -/
theorem C10_strip_invariance (s w₁ w₂ : List Char)
    (h₁ : ∀ c ∈ w₁, isPySpace c = true) (h₂ : ∀ c ∈ w₂, isPySpace c = true) :
    (parse_fpn (w₁ ++ s ++ w₂)).isOk = (parse_fpn s).isOk ∧
      ∀ st : FightState,
        (parse_fpn (w₁ ++ s ++ w₂) = Except.ok st ↔ parse_fpn s = Except.ok st) := by
  have hstrip := pyStrip_pad s w₁ w₂ h₁ h₂
  simp only [parse_fpn, hstrip]
  by_cases hc : (splitOnChar '/' (pyStrip s)).length ≠ 5
  · rw [if_pos hc, if_pos hc]
    exact ⟨rfl, fun st => by simp⟩
  · rw [if_neg hc, if_neg hc]
    exact ⟨rfl, fun st => Iff.rfl⟩

/-- C10 witness: whitespace padding of the literal example input. -/
theorem C10_witness :
    (∀ c ∈ (" ".toList : List Char), isPySpace c = true) ∧
      (∀ c ∈ ("\n ".toList : List Char), isPySpace c = true) ∧
      ((parse_fpn (" ".toList ++ exFPN ++ "\n ".toList)).isOk = (parse_fpn exFPN).isOk ∧
        ∀ st : FightState,
          (parse_fpn (" ".toList ++ exFPN ++ "\n ".toList) = Except.ok st ↔
            parse_fpn exFPN = Except.ok st)) :=
  ⟨by decide, by decide,
    C10_strip_invariance exFPN " ".toList "\n ".toList (by decide) (by decide)⟩

/-- C3 witness: the per-part compounding at fighter B damage 0.05 on the
blue base color. -/
theorem C3_witness :
    damageTintPass sceneObjsAtPose ("FighterA".toList) (5/100) blueColor =
        ⟨blueColor.r * tintFactor (5/100) ^ 15, blueColor.g * tintFactor (5/100) ^ 15,
          blueColor.b * tintFactor (5/100) ^ 15, 1⟩ ∧
      damageTintPass sceneObjsAtPose ("FighterB".toList) (5/100) blueColor =
        ⟨blueColor.r * tintFactor (5/100) ^ 15, blueColor.g * tintFactor (5/100) ^ 15,
          blueColor.b * tintFactor (5/100) ^ 15, 1⟩ :=
  C3_tint_applied_per_part (5/100) blueColor
